import Mathlib

/-!
Verification of the dashboard/integration payload builders of
terraform-provider-signalform (`signalform/dashboard.go` and the
integration resource file).

The Go functions are shallowly embedded: Terraform's `ResourceData` is
replaced by plain configuration records (an optional field that
`d.GetOk` may report as unset becomes an `Option`), the
`map[string]interface{}` payloads become association lists of
`String × JVal`, and the per-group layout loops become structural
recursions carrying the same mutable counters as explicit arguments.
-/

set_option autoImplicit false

namespace Signalform

/-- A JSON-compatible value, the codomain of the payload maps built by
the Go code before `json.Marshal`. -/
inductive JVal where
  | str : String → JVal
  | int : Int → JVal
  | bool : Bool → JVal
  | list : List JVal → JVal
  | obj : List (String × JVal) → JVal

/-- The keys of an association-list payload object. -/
def keys (m : List (String × JVal)) : List String :=
  m.map Prod.fst

/-- A resolved chart placement: the item map built by the chart layout
functions, which always carries exactly these five fields. -/
structure Placement where
  chartId : String
  row : Int
  column : Int
  width : Int
  height : Int
  deriving Repr, DecidableEq

/-- One entry of the `chart` set: explicit per-chart coordinates. -/
structure ChartEntry where
  chart_id : String
  row : Int
  column : Int
  width : Int
  height : Int
  deriving Repr, DecidableEq

/-- One entry of the `column` set: vertical stacking of `chart_ids`. -/
structure ColumnGroup where
  chart_ids : List String
  column : Int
  start_row : Int
  width : Int
  height : Int
  deriving Repr, DecidableEq

/-- One entry of the `grid` set: left-to-right packing of `chart_ids`. -/
structure GridGroup where
  chart_ids : List String
  start_row : Int
  start_column : Int
  width : Int
  height : Int
  deriving Repr, DecidableEq

/-- One entry of the `variable` set. -/
structure VariableDef where
  property : String
  «alias» : String
  description : String
  values : List String
  value_required : Bool
  values_suggested : List String
  restricted_suggestions : Bool
  replace_only : Bool
  apply_if_exist : Bool
  deriving Repr, DecidableEq

/-- One entry of the `filter` set. -/
structure FilterDef where
  property : String
  negated : Bool
  values : List String
  apply_if_exist : Bool
  deriving Repr, DecidableEq

/-- One nested `source` entry of an event overlay. -/
structure OverlaySource where
  property : String
  negated : Bool
  values : List String
  deriving Repr, DecidableEq

/-- One entry of `event_overlay` or `selected_event_overlay`.  The two
schemas share `getDashboardEventOverlays`; the selected-overlay schema
has no `line`, `label` or `color` keys, so the fields whose presence the
Go code probes with a type assertion are `Option`s. -/
structure EventOverlay where
  signal : String
  type : String
  line : Option Bool
  label : Option String
  color : Option String
  source : Option (List OverlaySource)
  deriving Repr, DecidableEq

/-- The dashboard resource configuration, after the external schema
layer has resolved types and defaults.  Fields read through `d.GetOk`
(unset means the zero value was never supplied) are `Option`s. -/
structure DashboardConfig where
  name : String
  description : String
  dashboard_group : String
  charts_resolution : Option String
  time_range : Option String
  start_time : Option Int
  end_time : Option Int
  chart : List ChartEntry
  grid : List GridGroup
  column : List ColumnGroup
  «variable» : List VariableDef
  filter : List FilterDef
  event_overlay : List EventOverlay
  selected_event_overlay : List EventOverlay

/-- The integration resource configuration. -/
structure IntegrationConfig where
  name : String
  enabled : Bool
  type : String
  api_key : String
  webhook_url : String
  deriving Repr, DecidableEq

/-- Embeds `getDashboardTime`: relative `time_range` wins and pins
`end = "Now"`; otherwise whichever of `start_time`/`end_time` is set is
converted to milliseconds.  Returns the (possibly empty) time map. -/
def getDashboardTime (d : DashboardConfig) : List (String × JVal) :=
  match d.time_range with
  | some val => [("start", JVal.str val), ("end", JVal.str "Now")]
  | none =>
    (match d.start_time with
     | some val => [("start", JVal.int (val * 1000))]
     | none => [])
    ++
    (match d.end_time with
     | some val => [("end", JVal.int (val * 1000))]
     | none => [])

/-- Embeds `getDashboardCharts`: explicit chart entries copied field by field. -/
def getDashboardCharts (d : DashboardConfig) : List Placement :=
  d.chart.map fun chart =>
    { chartId := chart.chart_id, row := chart.row, column := chart.column,
      height := chart.height, width := chart.width }

/-- The inner loop of `getDashboardColumns`: `current_row` is the
running row counter, incremented by `current_row++` after each chart. -/
def columnLoop (column_number width height : Int) :
    Int → List String → List Placement
  | _, [] => []
  | current_row, chart_id :: rest =>
    { chartId := chart_id, height := height, width := width,
      column := column_number, row := current_row }
      :: columnLoop column_number width height (current_row + 1) rest

/-- The placements emitted by `getDashboardColumns` for one column
group. -/
def columnCharts (g : ColumnGroup) : List Placement :=
  columnLoop g.column g.width g.height g.start_row g.chart_ids

/-- Embeds `getDashboardColumns`: column groups expanded in order and
appended. -/
def getDashboardColumns (d : DashboardConfig) : List Placement :=
  d.column.foldl (fun charts g => charts ++ columnCharts g) []

/-- The inner loop of `getDashboardGrids`: before each placement, if
`current_column + width > 12` the row advances by one and the column
resets to the group's `start_column`; after each placement
`current_column += width`. -/
def gridLoop (start_column width height : Int) :
    Int → Int → List String → List Placement
  | _, _, [] => []
  | current_row, current_column, chart_id :: rest =>
    if current_column + width > 12 then
      { chartId := chart_id, height := height, width := width,
        row := current_row + 1, column := start_column }
        :: gridLoop start_column width height (current_row + 1)
            (start_column + width) rest
    else
      { chartId := chart_id, height := height, width := width,
        row := current_row, column := current_column }
        :: gridLoop start_column width height current_row
            (current_column + width) rest

/-- The placements emitted by `getDashboardGrids` for one grid group. -/
def gridCharts (g : GridGroup) : List Placement :=
  gridLoop g.start_column g.width g.height g.start_row g.start_column g.chart_ids

/-- Embeds `getDashboardGrids`: grid groups expanded in order and appended. -/
def getDashboardGrids (d : DashboardConfig) : List Placement :=
  d.grid.foldl (fun charts g => charts ++ gridCharts g) []

/-- The item map built by `getDashboardVariables` for one variable:
`value` falls back to the literal empty string when the values set is
empty, and `preferredSuggestions` is inserted only for a non-empty
suggestion set. -/
def variableItem (v : VariableDef) : List (String × JVal) :=
  [("property", JVal.str v.property),
   ("description", JVal.str v.description),
   ("alias", JVal.str v.«alias»)]
  ++ (if v.values.length ≠ 0 then
        [("value", JVal.list (v.values.map JVal.str))]
      else
        [("value", JVal.str "")])
  ++ [("required", JVal.bool v.value_required)]
  ++ (if v.values_suggested.length ≠ 0 then
        [("preferredSuggestions", JVal.list (v.values_suggested.map JVal.str))]
      else [])
  ++ [("restricted", JVal.bool v.restricted_suggestions),
      ("applyIfExists", JVal.bool v.apply_if_exist),
      ("replaceOnly", JVal.bool v.replace_only)]

/-- Embeds `getDashboardVariables`. -/
def getDashboardVariables (d : DashboardConfig) : List (List (String × JVal)) :=
  d.«variable».map variableItem

/-- The nested source map of an event overlay (keys `property`,
`value`, `NOT`; no `applyIfExists`). -/
def overlaySourceItem (s : OverlaySource) : JVal :=
  JVal.obj [("property", JVal.str s.property),
            ("value", JVal.list (s.values.map JVal.str)),
            ("NOT", JVal.bool s.negated)]

/-- The item map built by `getDashboardEventOverlays` for one overlay.
`palette` embeds the read-only `PaletteColors` name→index table (defined
outside this file in the repository); `eventColorIndex` is inserted only
when the color is present and resolves in it. -/
def overlayItem (palette : String → Option Int) (o : EventOverlay) :
    List (String × JVal) :=
  [("eventSignal", JVal.obj [("eventSearchText", JVal.str o.signal),
                             ("eventType", JVal.str o.type)])]
  ++ (match o.line with
      | some val => [("eventLine", JVal.bool val)]
      | none => [])
  ++ (match o.label with
      | some val => [("label", JVal.str val)]
      | none => [])
  ++ (match o.color with
      | some val =>
        match palette val with
        | some elem => [("eventColorIndex", JVal.int elem)]
        | none => []
      | none => [])
  ++ (match o.source with
      | some sources => [("sources", JVal.list (sources.map overlaySourceItem))]
      | none => [])

/-- Embeds `getDashboardEventOverlays`. -/
def getDashboardEventOverlays (palette : String → Option Int)
    (overlays : List EventOverlay) : List (List (String × JVal)) :=
  overlays.map (overlayItem palette)

/-- The item map built by `getDashboardFilters` for one filter. -/
def filterItem (f : FilterDef) : List (String × JVal) :=
  [("property", JVal.str f.property),
   ("NOT", JVal.bool f.negated),
   ("applyIfExists", JVal.bool f.apply_if_exist),
   ("value", JVal.list (f.values.map JVal.str))]

/-- Embeds `getDashboardFilters`. -/
def getDashboardFilters (d : DashboardConfig) : List (List (String × JVal)) :=
  d.filter.map filterItem

/-- The `all_filters` sub-map of `getPayloadDashboard`: each of the
three sub-keys is inserted only when its collection is non-empty. -/
def allFilters (d : DashboardConfig) : List (String × JVal) :=
  (if (getDashboardFilters d).length > 0 then
     [("sources", JVal.list ((getDashboardFilters d).map JVal.obj))]
   else [])
  ++ (if (getDashboardVariables d).length > 0 then
        [("variables", JVal.list ((getDashboardVariables d).map JVal.obj))]
      else [])
  ++ (if (getDashboardTime d).length > 0 then
        [("time", JVal.obj (getDashboardTime d))]
      else [])

/-- A placement serialized into the payload's chart item map. -/
def placementJ (p : Placement) : JVal :=
  JVal.obj [("chartId", JVal.str p.chartId), ("row", JVal.int p.row),
            ("column", JVal.int p.column), ("height", JVal.int p.height),
            ("width", JVal.int p.width)]

/-- The combined `dashboard_charts` list of `getPayloadDashboard`:
explicit charts, then column expansions, then grid expansions. -/
def dashboardCharts (d : DashboardConfig) : List Placement :=
  getDashboardCharts d ++ getDashboardColumns d ++ getDashboardGrids d

/-- Embeds `getPayloadDashboard`: the assembled payload object (before
`json.Marshal`).  Conditional keys mirror the Go `if` guards; the two
overlay keys are set unconditionally. -/
def getPayloadDashboard (palette : String → Option Int)
    (d : DashboardConfig) : List (String × JVal) :=
  [("name", JVal.str d.name),
   ("description", JVal.str d.description),
   ("groupId", JVal.str d.dashboard_group)]
  ++ (if (allFilters d).length > 0 then
        [("filters", JVal.obj (allFilters d))]
      else [])
  ++ [("eventOverlays",
        JVal.list ((getDashboardEventOverlays palette d.event_overlay).map JVal.obj))]
  ++ [("selectedEventOverlays",
        JVal.list ((getDashboardEventOverlays palette d.selected_event_overlay).map JVal.obj))]
  ++ (if (dashboardCharts d).length > 0 then
        [("charts", JVal.list ((dashboardCharts d).map placementJ))]
      else [])
  ++ (match d.charts_resolution with
      | some chartsResolution => [("chartDensity", JVal.str chartsResolution.toUpper)]
      | none => [])

/-- Embeds `getPayloadIntegration`: the `switch` on the integration type
selects which secret field is projected; any other type adds neither. -/
def getPayloadIntegration (d : IntegrationConfig) : List (String × JVal) :=
  [("name", JVal.str d.name),
   ("enabled", JVal.bool d.enabled),
   ("type", JVal.str d.type)]
  ++ (if d.type = "PagerDuty" then [("apiKey", JVal.str d.api_key)]
      else if d.type = "Slack" then [("webhookUrl", JVal.str d.webhook_url)]
      else [])

/-- Embeds `validateChartsResolution`. -/
def validateChartsResolution (value : String) : List String :=
  let allowedWords := ["default", "low", "high", "highest"]
  if value ∈ allowedWords then []
  else [value ++ " not allowed; must be one of: " ++ String.intercalate ", " allowedWords]

/-- Embeds `validateEventOverlayType`. -/
def validateEventOverlayType (value : String) : List String :=
  let allowedWords := ["eventTimeSeries", "detectorEvents"]
  if value ∈ allowedWords then []
  else [value ++ " not allowed; must be one of: " ++ String.intercalate ", " allowedWords]

/-- Embeds `validateIntegrationType`. -/
def validateIntegrationType (value : String) : List String :=
  let allowedWords := ["PagerDuty", "Slack"]
  if value ∈ allowedWords then []
  else [value ++ " not allowed; must be one of: " ++ String.intercalate ", " allowedWords]

/-- A minimal dashboard configuration used to instantiate theorems on
concrete inputs. -/
def baseConfig : DashboardConfig :=
  { name := "dash", description := "", dashboard_group := "grp",
    charts_resolution := none, time_range := none, start_time := none,
    end_time := none, chart := [], grid := [], column := [],
    «variable» := [], filter := [], event_overlay := [],
    selected_event_overlay := [] }

/-- A one-entry palette used to instantiate palette-generic theorems. -/
def witnessPalette (c : String) : Option Int :=
  if c = "red" then some 0 else none

/-! ## Helper lemmas about the layout loops -/

theorem columnLoop_length (cn w ht : Int) (ids : List String) :
    ∀ (row : Int), (columnLoop cn w ht row ids).length = ids.length := by
  induction ids with
  | nil => intro row; rfl
  | cons a rest ih => intro row; simp [columnLoop, ih]

theorem columnLoop_get (cn w ht : Int) (ids : List String) :
    ∀ (row : Int) (i : Nat) (h1 : i < (columnLoop cn w ht row ids).length)
      (h2 : i < ids.length),
      (columnLoop cn w ht row ids).get ⟨i, h1⟩
        = { chartId := ids.get ⟨i, h2⟩, row := row + i, column := cn,
            width := w, height := ht } := by
  induction ids with
  | nil => intro row i h1 h2; exact absurd h2 (by simp)
  | cons a rest ih =>
    intro row i h1 h2
    cases i with
    | zero => simp [columnLoop]
    | succ n =>
      have h2n : n < rest.length := by simpa using Nat.lt_of_succ_lt_succ h2
      have h1n : n < (columnLoop cn w ht (row + 1) rest).length := by
        rw [columnLoop_length]; exact h2n
      have hrec := ih (row + 1) n h1n h2n
      have hL : (columnLoop cn w ht row (a :: rest)).get ⟨n + 1, h1⟩
          = (columnLoop cn w ht (row + 1) rest).get ⟨n, h1n⟩ := by
        simp [columnLoop]
      rw [hL, hrec]
      have : row + 1 + (n : Int) = row + ((n : Int) + 1) := by ring
      simp [this]

/-! ## C1: column-layout stacking -/

/-- C1 (counterexample): the claim says successive rows of a column
group differ by the group's shared height; on a group of height 2 with
two charts starting at row 0, the claim predicts rows `[0, 2]`, but the
code emits rows `[0, 1]`. -/
theorem c1_counterexample :
    ¬ ((columnCharts { chart_ids := ["a", "b"], column := 0, start_row := 0,
                       width := 12, height := 2 }).map Placement.row
          = [0, 0 + 2]) := by
  decide

/-- C1 (amended): for every column layout group, the resolver emits one
placement per chart id in list order, each at the group's fixed column
with the shared width and height, with the first placement's row equal
to `start_row` and each successive placement's row exceeding the
previous one's by exactly 1 (the code increments the running row by one
per chart, regardless of the shared height). -/
theorem c1_column_stacking (g : ColumnGroup) :
    (columnCharts g).length = g.chart_ids.length
    ∧ ∀ (i : Nat) (h1 : i < (columnCharts g).length)
        (h2 : i < g.chart_ids.length),
        (columnCharts g).get ⟨i, h1⟩
          = { chartId := g.chart_ids.get ⟨i, h2⟩, row := g.start_row + i,
              column := g.column, width := g.width, height := g.height } := by
  exact ⟨columnLoop_length g.column g.width g.height g.chart_ids g.start_row,
         fun i h1 h2 =>
           columnLoop_get g.column g.width g.height g.chart_ids g.start_row i h1 h2⟩

/-- C1 (witness): the amended theorem instantiated on a concrete
two-chart column group of height 2, at index 1. -/
theorem c1_column_stacking_witness :
    (columnCharts { chart_ids := ["x", "y"], column := 3, start_row := 5,
                    width := 4, height := 2 }).get ⟨1, by decide⟩
      = { chartId := "y", row := 6, column := 3, width := 4, height := 2 } := by
  have h := (c1_column_stacking
    { chart_ids := ["x", "y"], column := 3, start_row := 5,
      width := 4, height := 2 }).2 1 (by decide) (by decide)
  simpa using h

/-! ## Helper lemmas about the grid loop -/

theorem gridLoop_head (sc w ht row col : Int) (ids : List String) (q : Placement)
    (hq : q ∈ (gridLoop sc w ht row col ids).head?) :
    (col + w > 12 ∧ q.row = row + 1 ∧ q.column = sc)
    ∨ (¬ col + w > 12 ∧ q.row = row ∧ q.column = col) := by
  cases ids with
  | nil => simp [gridLoop] at hq
  | cons a rest =>
    by_cases hc : col + w > 12
    · left
      simp only [gridLoop, if_pos hc, List.head?_cons, Option.mem_def,
        Option.some.injEq] at hq
      subst hq
      exact ⟨hc, rfl, rfl⟩
    · right
      simp only [gridLoop, if_neg hc, List.head?_cons, Option.mem_def,
        Option.some.injEq] at hq
      subst hq
      exact ⟨hc, rfl, rfl⟩

theorem gridLoop_chain (sc w ht : Int) (ids : List String) :
    ∀ (row col : Int),
      List.Chain'
        (fun p q =>
          if p.column + w + w > 12 then q.row = p.row + 1 ∧ q.column = sc
          else q.row = p.row ∧ q.column = p.column + w)
        (gridLoop sc w ht row col ids) := by
  induction ids with
  | nil => intro row col; simp [gridLoop]
  | cons a rest ih =>
    intro row col
    by_cases hc : col + w > 12
    · simp only [gridLoop, if_pos hc]
      rw [List.chain'_cons']
      refine ⟨?_, ih (row + 1) (sc + w)⟩
      intro q hq
      rcases gridLoop_head sc w ht (row + 1) (sc + w) rest q hq with
        ⟨h1, h2, h3⟩ | ⟨h1, h2, h3⟩
      · dsimp only
        rw [if_pos h1]
        exact ⟨h2, h3⟩
      · dsimp only
        rw [if_neg h1]
        exact ⟨h2, h3⟩
    · simp only [gridLoop, if_neg hc]
      rw [List.chain'_cons']
      refine ⟨?_, ih row (col + w)⟩
      intro q hq
      rcases gridLoop_head sc w ht row (col + w) rest q hq with
        ⟨h1, h2, h3⟩ | ⟨h1, h2, h3⟩
      · dsimp only
        rw [if_pos h1]
        exact ⟨h2, h3⟩
      · dsimp only
        rw [if_neg h1]
        exact ⟨h2, h3⟩

theorem gridLoop_column_mem (sc w ht : Int) (ids : List String) :
    ∀ (row col : Int) (p : Placement), p ∈ gridLoop sc w ht row col ids →
      p.column = sc ∨ p.column + w ≤ 12 := by
  induction ids with
  | nil => intro row col p hp; simp [gridLoop] at hp
  | cons a rest ih =>
    intro row col p hp
    by_cases hc : col + w > 12
    · simp only [gridLoop, if_pos hc, List.mem_cons] at hp
      rcases hp with rfl | hp
      · left; rfl
      · exact ih (row + 1) (sc + w) p hp
    · simp only [gridLoop, if_neg hc, List.mem_cons] at hp
      rcases hp with rfl | hp
      · right
        dsimp only
        omega
      · exact ih row (col + w) p hp

/-! ## C2: grid wrapping returns to the starting column -/

/-- C2 (counterexample): the claim's example predicts placements
`(0,2), (0,8), (1,2)` for a grid group with `start_column = 2`,
`width = 6` and three chart ids starting at row 0; the code actually
wraps the second chart too (column 8 plus width 6 exceeds 12), emitting
`(0,2), (1,2), (2,2)`. -/
theorem c2_counterexample :
    ¬ ((gridCharts { chart_ids := ["a", "b", "c"], start_row := 0,
                     start_column := 2, width := 6, height := 1 }).map
          (fun p => (p.row, p.column))
        = [(0, 2), (0, 8), (1, 2)]) := by
  decide

/-- C2 (amended): for every grid layout group, when placing the next
chart would make `current_column + width` exceed 12, the resolver
increments the row by one and resets the column to the group's
`start_column` (not to 0); a grid group with `start_column = 2`,
`width = 6` and three chart ids yields placements `(r,2), (r+1,2),
(r+2,2)` where `r` is `start_row`, since after the first chart the
column is 8 and `8 + 6 > 12` forces a wrap before each later chart. -/
theorem c2_grid_wrap (g : GridGroup) :
    List.Chain'
      (fun p q =>
        if p.column + g.width + g.width > 12 then
          q.row = p.row + 1 ∧ q.column = g.start_column
        else
          q.row = p.row ∧ q.column = p.column + g.width)
      (gridCharts g)
    ∧ ∀ (r ht : Int) (a b c : String),
        (gridCharts { chart_ids := [a, b, c], start_row := r,
                      start_column := 2, width := 6, height := ht }).map
            (fun p => (p.row, p.column))
          = [(r, 2), (r + 1, 2), (r + 2, 2)] := by
  refine ⟨gridLoop_chain g.start_column g.width g.height g.chart_ids
            g.start_row g.start_column, ?_⟩
  intro r ht a b c
  norm_num [gridCharts, gridLoop]
  ring

/-- C2 (witness): the amended theorem instantiated at `start_row = 0`
with chart ids `a`, `b`, `c`. -/
theorem c2_grid_wrap_witness :
    (gridCharts { chart_ids := ["a", "b", "c"], start_row := 0,
                  start_column := 2, width := 6, height := 1 }).map
        (fun p => (p.row, p.column))
      = [(0, 2), (0 + 1, 2), (0 + 2, 2)] :=
  (c2_grid_wrap { chart_ids := [], start_row := 0, start_column := 0,
                  width := 0, height := 0 }).2 0 1 "a" "b" "c"

/-! ## C6: grid packing invariant -/

/-- C6: for every grid layout group whose `start_column + width` does
not exceed 12, every placement emitted for that group satisfies
`column + width ≤ 12`; a first-element violation can only arise when
`start_column + width > 12`. -/
theorem c6_grid_packing_invariant (g : GridGroup)
    (hsc : g.start_column + g.width ≤ 12) :
    ∀ p ∈ gridCharts g, p.column + g.width ≤ 12 := by
  intro p hp
  rcases gridLoop_column_mem g.start_column g.width g.height g.chart_ids
      g.start_row g.start_column p hp with h | h
  · rw [h]; exact hsc
  · exact h

/-- C6 (witness): the packing invariant instantiated on a one-chart
grid group with `start_column = 0` and `width = 6`. -/
theorem c6_grid_packing_invariant_witness :
    ({ chartId := "a", row := 0, column := 0, width := 6,
       height := 1 } : Placement).column + (6 : Int) ≤ 12 :=
  c6_grid_packing_invariant
    { chart_ids := ["a"], start_row := 0, start_column := 0,
      width := 6, height := 1 }
    (by decide) _ (by decide)

/-! ## C10: a grid wrap advances the row by exactly one -/

/-- C10: for every grid layout group, consecutive placements either
stay on the same row or advance it by exactly 1 (never by the shared
height); hence when the height is at least 2, the placement after a
wrap starts on a row still spanned by the chart placed before it. -/
theorem c10_wrap_advances_one_row (g : GridGroup) :
    List.Chain'
      (fun p q => (q.row = p.row ∨ q.row = p.row + 1)
        ∧ (2 ≤ g.height → q.row < p.row + g.height))
      (gridCharts g) := by
  have h := gridLoop_chain g.start_column g.width g.height g.chart_ids
    g.start_row g.start_column
  refine h.imp ?_
  intro p q hpq
  by_cases hc : p.column + g.width + g.width > 12
  · rw [if_pos hc] at hpq
    exact ⟨Or.inr hpq.1, fun hh => by omega⟩
  · rw [if_neg hc] at hpq
    exact ⟨Or.inl hpq.1, fun hh => by omega⟩

/-- C10 (witness): the theorem instantiated on a two-chart grid group
of width 12 and height 2, whose second chart wraps to row 1 and hence
overlaps the rows spanned by the first. -/
theorem c10_wrap_advances_one_row_witness :
    List.Chain'
      (fun p q => (q.row = p.row ∨ q.row = p.row + 1)
        ∧ ((2 : Int) ≤ 2 → q.row < p.row + 2))
      (gridCharts { chart_ids := ["a", "b"], start_row := 0,
                    start_column := 0, width := 12, height := 2 }) :=
  c10_wrap_advances_one_row
    { chart_ids := ["a", "b"], start_row := 0, start_column := 0,
      width := 12, height := 2 }

/-! ## Helper lemmas about the assembled payload -/

theorem keys_allFilters (d : DashboardConfig) :
    keys (allFilters d)
      = (if (getDashboardFilters d).length > 0 then ["sources"] else [])
        ++ (if (getDashboardVariables d).length > 0 then ["variables"] else [])
        ++ (if (getDashboardTime d).length > 0 then ["time"] else []) := by
  unfold allFilters keys
  split <;> split <;> split <;> simp

/-! ## C3: time-window projection -/

/-- C3: if the relative `time_range` string is set, the time projection
outputs exactly `{start: <the string>, end: "Now"}`, ignoring
`start_time` and `end_time`; if `time_range` is absent, each of
`start_time`/`end_time` that is set is emitted multiplied by 1000 and
an unset one yields no corresponding key; if none of the three is set,
the `time` sub-key is omitted from the payload altogether. -/
theorem c3_time_projection (d : DashboardConfig) :
    (∀ tr, d.time_range = some tr →
        getDashboardTime d = [("start", JVal.str tr), ("end", JVal.str "Now")])
    ∧ (d.time_range = none →
        (∀ s, d.start_time = some s →
            ("start", JVal.int (s * 1000)) ∈ getDashboardTime d)
        ∧ (d.start_time = none → "start" ∉ keys (getDashboardTime d))
        ∧ (∀ e, d.end_time = some e →
            ("end", JVal.int (e * 1000)) ∈ getDashboardTime d)
        ∧ (d.end_time = none → "end" ∉ keys (getDashboardTime d)))
    ∧ (d.time_range = none → d.start_time = none → d.end_time = none →
        getDashboardTime d = [] ∧ "time" ∉ keys (allFilters d)) := by
  refine ⟨?_, ?_, ?_⟩
  · intro tr htr
    simp [getDashboardTime, htr]
  · intro hnone
    refine ⟨?_, ?_, ?_, ?_⟩
    · intro s hs
      cases he : d.end_time <;> simp [getDashboardTime, hnone, hs, he]
    · intro hs
      cases he : d.end_time <;> simp [getDashboardTime, keys, hnone, hs, he]
    · intro e he
      cases hs : d.start_time <;> simp [getDashboardTime, hnone, he, hs]
    · intro he
      cases hs : d.start_time <;> simp [getDashboardTime, keys, hnone, he, hs]
  · intro h1 h2 h3
    have hempty : getDashboardTime d = [] := by
      simp [getDashboardTime, h1, h2, h3]
    refine ⟨hempty, ?_⟩
    rw [keys_allFilters, hempty]
    by_cases hf : (getDashboardFilters d).length > 0 <;>
      by_cases hv : (getDashboardVariables d).length > 0 <;>
        simp [hf, hv]

/-- C3 (witness): a configuration with all three time fields set emits
the relative window and ignores the explicit bounds. -/
theorem c3_time_projection_witness :
    getDashboardTime { baseConfig with
                       time_range := some "-1h",
                       start_time := some 100, end_time := some 200 }
      = [("start", JVal.str "-1h"), ("end", JVal.str "Now")] :=
  (c3_time_projection _).1 "-1h" rfl

/-! ## C4: integration secret-field selection -/

/-- C4: the integration payload contains `apiKey` exactly when the type
is `"PagerDuty"` and `webhookUrl` exactly when the type is `"Slack"`;
the unused secret field never appears, and any other type yields a
payload with neither secret field. -/
theorem c4_integration_secret (d : IntegrationConfig) :
    ("apiKey" ∈ keys (getPayloadIntegration d) ↔ d.type = "PagerDuty")
    ∧ ("webhookUrl" ∈ keys (getPayloadIntegration d) ↔ d.type = "Slack") := by
  by_cases hp : d.type = "PagerDuty" <;> by_cases hs : d.type = "Slack" <;>
    simp [getPayloadIntegration, keys, hp, hs]

/-- C4 (witness): a Slack integration with both secrets set emits
`webhookUrl` and never `apiKey`. -/
theorem c4_integration_secret_witness :
    "webhookUrl" ∈ keys (getPayloadIntegration
        { name := "n", enabled := true, type := "Slack",
          api_key := "k", webhook_url := "u" })
    ∧ "apiKey" ∉ keys (getPayloadIntegration
        { name := "n", enabled := true, type := "Slack",
          api_key := "k", webhook_url := "u" }) := by
  have h := c4_integration_secret
    { name := "n", enabled := true, type := "Slack",
      api_key := "k", webhook_url := "u" }
  exact ⟨h.2.mpr rfl, fun hm => absurd (h.1.mp hm) (by decide)⟩

/-! ## C5: variable normalization -/

/-- C5: the variable normalizer sets the `value` field to the literal
empty string when no values are supplied and to the list of values
otherwise, and includes the `preferredSuggestions` key if and only if
at least one suggested value is present. -/
theorem c5_variable_normalizer (v : VariableDef) :
    (∀ w, ("value", w) ∈ variableItem v
        ↔ w = if v.values = [] then JVal.str ""
              else JVal.list (v.values.map JVal.str))
    ∧ ("preferredSuggestions" ∈ keys (variableItem v)
        ↔ v.values_suggested ≠ []) := by
  constructor
  · intro w
    by_cases hv : v.values = [] <;>
      by_cases hsug : v.values_suggested = [] <;>
        simp [variableItem, hv, hsug, eq_comm]
  · by_cases hv : v.values = [] <;>
      by_cases hsug : v.values_suggested = [] <;>
        simp [variableItem, keys, hv, hsug]

/-- C5 (witness): a variable with no values and one suggestion gets the
empty-string `value` and carries `preferredSuggestions`. -/
theorem c5_variable_normalizer_witness :
    (("value", JVal.str "") ∈ variableItem
        { property := "p", «alias» := "a", description := "",
          values := [], value_required := false,
          values_suggested := ["s"], restricted_suggestions := false,
          replace_only := false, apply_if_exist := false })
    ∧ "preferredSuggestions" ∈ keys (variableItem
        { property := "p", «alias» := "a", description := "",
          values := [], value_required := false,
          values_suggested := ["s"], restricted_suggestions := false,
          replace_only := false, apply_if_exist := false }) := by
  have h := c5_variable_normalizer
    { property := "p", «alias» := "a", description := "",
      values := [], value_required := false,
      values_suggested := ["s"], restricted_suggestions := false,
      replace_only := false, apply_if_exist := false }
  exact ⟨(h.1 (JVal.str "")).mpr (by simp), h.2.mpr (by simp)⟩

/-! ## C7: event-overlay color resolution -/

/-- C7: the normalized overlay object contains the `eventColorIndex`
key if and only if the `color` field is set and its name resolves in
the palette table; an unrecognized color name leaves the key entirely
absent, and no error is raised. -/
theorem c7_overlay_color (palette : String → Option Int) (o : EventOverlay) :
    "eventColorIndex" ∈ keys (overlayItem palette o)
      ↔ ∃ c idx, o.color = some c ∧ palette c = some idx := by
  rcases hc : o.color with _ | c
  · cases hl : o.line <;> cases hb : o.label <;> cases hs : o.source <;>
      simp [overlayItem, keys, hl, hb, hs, hc]
  · cases hp : palette c <;>
      cases hl : o.line <;> cases hb : o.label <;> cases hs : o.source <;>
        simp [overlayItem, keys, hl, hb, hs, hc, hp]

/-- C7 (witness): an overlay whose color resolves in a one-entry
palette carries `eventColorIndex`. -/
theorem c7_overlay_color_witness :
    "eventColorIndex" ∈ keys (overlayItem witnessPalette
      { signal := "s", type := "eventTimeSeries", line := none,
        label := none, color := some "red", source := none }) :=
  (c7_overlay_color witnessPalette _).mpr ⟨"red", 0, rfl, by decide⟩

/-! ## C8: conditional top-level payload keys -/

theorem allFilters_eq_nil (d : DashboardConfig) :
    allFilters d = []
      ↔ getDashboardFilters d = [] ∧ getDashboardVariables d = []
        ∧ getDashboardTime d = [] := by
  unfold allFilters
  split <;> split <;> split <;>
    simp_all [List.length_pos_iff_ne_nil, List.length_eq_zero]

theorem keys_payload (palette : String → Option Int) (d : DashboardConfig) :
    keys (getPayloadDashboard palette d)
      = ["name", "description", "groupId"]
        ++ (if (allFilters d).length > 0 then ["filters"] else [])
        ++ ["eventOverlays", "selectedEventOverlays"]
        ++ (if (dashboardCharts d).length > 0 then ["charts"] else [])
        ++ (match d.charts_resolution with
            | some _ => ["chartDensity"]
            | none => []) := by
  unfold getPayloadDashboard keys
  cases d.charts_resolution <;> split <;> split <;> simp

/-- C8: the assembled payload omits the `filters` key exactly when
sources, variables and time are all empty (the sub-object holds exactly
the non-empty sub-keys), omits `charts` when the combined
explicit+column+grid placement list is empty, omits `chartDensity`
unless a resolution is set (then carries its uppercased value), while
`eventOverlays` and `selectedEventOverlays` are always present. -/
theorem c8_payload_keys (palette : String → Option Int) (d : DashboardConfig) :
    ("filters" ∈ keys (getPayloadDashboard palette d)
        ↔ ¬ (getDashboardFilters d = [] ∧ getDashboardVariables d = []
             ∧ getDashboardTime d = []))
    ∧ ("sources" ∈ keys (allFilters d) ↔ getDashboardFilters d ≠ [])
    ∧ ("variables" ∈ keys (allFilters d) ↔ getDashboardVariables d ≠ [])
    ∧ ("time" ∈ keys (allFilters d) ↔ getDashboardTime d ≠ [])
    ∧ ("charts" ∈ keys (getPayloadDashboard palette d)
        ↔ dashboardCharts d ≠ [])
    ∧ ("chartDensity" ∈ keys (getPayloadDashboard palette d)
        ↔ d.charts_resolution ≠ none)
    ∧ (∀ r, d.charts_resolution = some r →
        ("chartDensity", JVal.str r.toUpper) ∈ getPayloadDashboard palette d)
    ∧ "eventOverlays" ∈ keys (getPayloadDashboard palette d)
    ∧ "selectedEventOverlays" ∈ keys (getPayloadDashboard palette d) := by
  refine ⟨?_, ?_, ?_, ?_, ?_, ?_, ?_, ?_, ?_⟩
  · rw [keys_payload, ← allFilters_eq_nil]
    split <;> split <;> split <;>
      simp_all [List.length_pos_iff_ne_nil, List.length_eq_zero]
  · rw [keys_allFilters]
    split <;> split <;> split <;>
      simp_all [List.length_pos_iff_ne_nil, List.length_eq_zero]
  · rw [keys_allFilters]
    split <;> split <;> split <;>
      simp_all [List.length_pos_iff_ne_nil, List.length_eq_zero]
  · rw [keys_allFilters]
    split <;> split <;> split <;>
      simp_all [List.length_pos_iff_ne_nil, List.length_eq_zero]
  · rw [keys_payload]
    split <;> split <;> split <;>
      simp_all [List.length_pos_iff_ne_nil, List.length_eq_zero]
  · rw [keys_payload]
    split <;> split <;> split <;>
      simp_all [List.length_pos_iff_ne_nil, List.length_eq_zero]
  · intro r hr
    simp [getPayloadDashboard, hr]
  · rw [keys_payload]
    simp
  · rw [keys_payload]
    simp

/-- C8 (witness): on the minimal configuration the overlay keys are
present and `filters` is absent. -/
theorem c8_payload_keys_witness :
    "eventOverlays" ∈ keys (getPayloadDashboard witnessPalette baseConfig)
    ∧ "filters" ∉ keys (getPayloadDashboard witnessPalette baseConfig) := by
  have h := c8_payload_keys witnessPalette baseConfig
  exact ⟨h.2.2.2.2.2.2.2.1, fun hm => (h.1.mp hm) ⟨rfl, rfl, rfl⟩⟩

/-! ## C9: enumerated-string validators -/

/-- C9: each of the three enum validators returns no error on a member
of its allowed set, and exactly one formatted error naming the
offending value and the allowed set otherwise. -/
theorem c9_enum_validators (value : String) :
    (validateChartsResolution value
       = if value ∈ ["default", "low", "high", "highest"] then []
         else [value ++ " not allowed; must be one of: "
                 ++ "default, low, high, highest"])
    ∧ (validateEventOverlayType value
       = if value ∈ ["eventTimeSeries", "detectorEvents"] then []
         else [value ++ " not allowed; must be one of: "
                 ++ "eventTimeSeries, detectorEvents"])
    ∧ (validateIntegrationType value
       = if value ∈ ["PagerDuty", "Slack"] then []
         else [value ++ " not allowed; must be one of: "
                 ++ "PagerDuty, Slack"]) := by
  refine ⟨?_, ?_, ?_⟩
  · have hj : String.intercalate ", " ["default", "low", "high", "highest"]
        = "default, low, high, highest" := by decide
    by_cases h : value ∈ ["default", "low", "high", "highest"] <;>
      simp [validateChartsResolution, h, hj]
  · have hj : String.intercalate ", " ["eventTimeSeries", "detectorEvents"]
        = "eventTimeSeries, detectorEvents" := by decide
    by_cases h : value ∈ ["eventTimeSeries", "detectorEvents"] <;>
      simp [validateEventOverlayType, h, hj]
  · have hj : String.intercalate ", " ["PagerDuty", "Slack"]
        = "PagerDuty, Slack" := by decide
    by_cases h : value ∈ ["PagerDuty", "Slack"] <;>
      simp [validateIntegrationType, h, hj]

/-- C9 (witness): a member value passes and a non-member value gets the
one formatted error. -/
theorem c9_enum_validators_witness :
    validateChartsResolution "low" = []
    ∧ validateIntegrationType "nope"
        = ["nope not allowed; must be one of: PagerDuty, Slack"] := by
  constructor
  · have h := (c9_enum_validators "low").1
    simpa using h
  · have h := (c9_enum_validators "nope").2.2
    simpa using h

end Signalform
